import Mathlib

/-!
Verification development for the meteor-cloud-run deployment CLI.

Shallow embedding of the load-balancer provisioning engine
(`createLoadBalancer`), the teardown engine (`deleteLoadBalancer`),
resource naming (`sanitizeServiceName`, `generateResourceNames`),
the readiness poller (`waitForResourceReady`) and the domain-mapping
migration orchestrator (`detectMigrationNeeded`, `checkMigrationConfig`,
`performMigration`, `migrateDomainMapping`).

The cloud provider is modelled as an explicit environment record holding,
for the resource names of one configuration, which resources exist and
which addresses the provider has allocated; `gcloud ... describe` becomes
a lookup in that record (a failing describe is a "not found" error, the
only describe failure the code distinguishes), `gcloud ... create` becomes
an update, and each issued command is recorded in an explicit trace.
Outcomes of fallible deletion / query calls are supplied by oracle
functions, so theorems can quantify over every possible interleaving of
successes, "not found" results and other failures.
-/

namespace MCR

/-! ## Resource naming (src/src/utils.js, `sanitizeServiceName`;
    loadBalancer module, `generateResourceNames`) -/

def isLowerAlpha (c : Char) : Bool :=
  decide ('a' ≤ c ∧ c ≤ 'z')

def isDigitChar (c : Char) : Bool :=
  decide ('0' ≤ c ∧ c ≤ '9')

/-- A character allowed in a sanitized name: `[a-z0-9-]`. -/
def isValidNameChar (c : Char) : Bool :=
  isLowerAlpha c || isDigitChar c || decide (c = '-')

/-- The replace of the regex `-+` by `-`: collapse every run of hyphens
    to one hyphen. -/
def collapseHyphens : List Char → List Char
  | [] => []
  | [c] => [c]
  | a :: b :: rest =>
      if a = '-' ∧ b = '-' then collapseHyphens (b :: rest)
      else a :: collapseHyphens (b :: rest)

/-- The replace of the regex `-$` by the empty string: remove a single
    trailing hyphen. -/
def dropTrailingHyphen (l : List Char) : List Char :=
  if l.getLast? = some '-' then l.dropLast else l

/-- The regex pipeline of `sanitizeServiceName` before the fallback checks:
    lowercase, replace invalid characters with hyphens, strip leading
    non-letters, collapse hyphen runs, drop a trailing hyphen,
    truncate to 63 characters (`substring(0, 63)`). -/
def sanitizeSteps (l : List Char) : List Char :=
  ((dropTrailingHyphen
      (collapseHyphens
        (((l.map Char.toLower).map
            (fun c => if isValidNameChar c then c else '-')).dropWhile
          (fun c => !(isLowerAlpha c))))).take 63)

/-- `sanitizeServiceName` (src/src/utils.js lines 503-528): the pipeline,
    then a `meteor-` fallback when the result is empty or does not start
    with a letter, a second trailing-hyphen removal, and a final
    `meteor-app` fallback for the empty string. -/
def sanitizeServiceName (s : String) : String :=
  let sanitized := sanitizeSteps s.data
  let sanitized1 :=
    if sanitized.isEmpty || !(isLowerAlpha (sanitized.headD ' ')) then
      String.data "meteor-" ++ (if sanitized.isEmpty then String.data "app" else sanitized)
    else sanitized
  let sanitized2 := dropTrailingHyphen sanitized1
  String.mk (if sanitized2.isEmpty then String.data "meteor-app" else sanitized2)

/-- The set of generated load-balancer resource names
    (loadBalancer module, `generateResourceNames`). -/
structure ResourceNameSet where
  staticIpName : String
  sslCertName : String
  negName : String
  backendServiceName : String
  urlMapName : String
  targetProxyName : String
  forwardingRuleName : String
  natIpName : String
  routerName : String
  natName : String
  deriving DecidableEq, Repr

/-- `generateResourceNames(serviceName, customDomain)`:
    every name is the sanitized service name plus a fixed suffix. -/
def generateResourceNames (serviceName : String) : ResourceNameSet :=
  let sanitizedName := sanitizeServiceName serviceName
  { staticIpName := sanitizedName ++ "-ip"
    sslCertName := sanitizedName ++ "-ssl-cert"
    negName := sanitizedName ++ "-neg"
    backendServiceName := sanitizedName ++ "-backend"
    urlMapName := sanitizedName ++ "-url-map"
    targetProxyName := sanitizedName ++ "-https-proxy"
    forwardingRuleName := sanitizedName ++ "-https-rule"
    natIpName := sanitizedName ++ "-nat-ip"
    routerName := sanitizedName ++ "-router"
    natName := sanitizedName ++ "-nat" }

/-! ## Provisioning engine (loadBalancer module, `createLoadBalancer`) -/

/-- The kinds of provider resources the engine touches. -/
inductive ResourceKind
  | staticIp | network | fwInternal | fwSsh | fwHttps
  | natIp | router | nat | vpcConnector
  | sslCert | neg | backend | urlMap | targetProxy | forwardingRule
  deriving DecidableEq, Repr

/-- One issued `gcloud` command, abstracted to its kind of action,
    the resource kind and the resource name it names. -/
inductive Cmd
  | describeCmd (k : ResourceKind) (name : String)
  | createCmd (k : ResourceKind) (name : String)
  | deleteCmd (k : ResourceKind) (name : String)
  | addBackendCmd (backendName negName : String)
  | enableApiCmd (api : String)
  deriving DecidableEq, Repr

/-- Provider state for the resource names of one configuration.
    `Option String` fields hold the allocated address (for IPs) or the
    reported state (for the VPC connector) when the resource exists;
    `Bool` fields record bare existence.  `allocIp` / `allocNatIp` are the
    addresses the provider would allocate on a create call. -/
structure Env where
  staticIp : Option String
  defaultNetwork : Bool
  customNetwork : Bool
  fwInternal : Bool
  fwSsh : Bool
  fwHttps : Bool
  natIp : Option String
  router : Bool
  nat : Bool
  connector : Option String
  sslCert : Bool
  neg : Bool
  backend : Bool
  urlMap : Bool
  targetProxy : Bool
  forwardingRule : Bool
  allocIp : String
  allocNatIp : String
  deriving DecidableEq, Repr

/-- The configuration fields `createLoadBalancer` destructures. -/
structure ProvisionConfig where
  projectId : String
  serviceName : String
  customDomain : String
  region : String
  useStaticIP : Bool
  deriving DecidableEq, Repr

/-- The value returned by `createLoadBalancer`: the allocated inbound IP,
    the spread of `generateResourceNames`, plus `vpcConnectorName` and
    `natIpAddress` when outbound NAT was requested.  The NAT-related name
    fields are `Option` so the same type also covers persisted descriptors
    that lack them; a descriptor built by `createLoadBalancer` always
    carries `natIpName`, `routerName` and `natName` (the code spreads the
    full name set into the result unconditionally). -/
structure ResourceDescriptor where
  ipAddress : String
  staticIpName : String
  sslCertName : String
  negName : String
  backendServiceName : String
  urlMapName : String
  targetProxyName : String
  forwardingRuleName : String
  natIpName : Option String
  routerName : Option String
  natName : Option String
  vpcConnectorName : Option String
  natIpAddress : Option String
  deriving DecidableEq, Repr

/-- Step 1 (lines 925-947): reuse the global static IP when the describe
    finds it, otherwise create it and read the allocated address back. -/
def stageStaticIp (cfg : ProvisionConfig) (env : Env) : String × Env × List Cmd :=
  let n := generateResourceNames cfg.serviceName
  match env.staticIp with
  | some addr => (addr, env, [Cmd.describeCmd .staticIp n.staticIpName])
  | none =>
      (env.allocIp, { env with staticIp := some env.allocIp },
        [Cmd.describeCmd .staticIp n.staticIpName,
         Cmd.createCmd .staticIp n.staticIpName,
         Cmd.describeCmd .staticIp n.staticIpName])

/-- Network selection inside the `useStaticIP` branch (lines 953-1020):
    use `default` when present; otherwise fall back to the
    `serviceName-network` custom network, creating it and its three
    firewall rules when missing.  A failing describe is modelled as the
    "not found" error this branch tests for. -/
def stageNetwork (cfg : ProvisionConfig) (env : Env) : String × Env × List Cmd :=
  if env.defaultNetwork then
    ("default", env, [Cmd.describeCmd .network "default"])
  else
    let networkName := cfg.serviceName ++ "-network"
    let (env1, t1) :=
      if env.customNetwork then
        (env, [Cmd.describeCmd .network networkName])
      else
        ({ env with customNetwork := true },
         [Cmd.describeCmd .network networkName, Cmd.createCmd .network networkName])
    let fwInternalName := networkName ++ "-allow-internal"
    let (env2, t2) :=
      if env1.fwInternal then
        (env1, [Cmd.describeCmd .fwInternal fwInternalName])
      else
        ({ env1 with fwInternal := true },
         [Cmd.describeCmd .fwInternal fwInternalName, Cmd.createCmd .fwInternal fwInternalName])
    let fwSshName := networkName ++ "-allow-ssh"
    let (env3, t3) :=
      if env2.fwSsh then
        (env2, [Cmd.describeCmd .fwSsh fwSshName])
      else
        ({ env2 with fwSsh := true },
         [Cmd.describeCmd .fwSsh fwSshName, Cmd.createCmd .fwSsh fwSshName])
    let fwHttpsName := networkName ++ "-allow-https"
    let (env4, t4) :=
      if env3.fwHttps then
        (env3, [Cmd.describeCmd .fwHttps fwHttpsName])
      else
        ({ env3 with fwHttps := true },
         [Cmd.describeCmd .fwHttps fwHttpsName, Cmd.createCmd .fwHttps fwHttpsName])
    (networkName, env4, Cmd.describeCmd .network "default" :: (t1 ++ t2 ++ t3 ++ t4))

/-- Lines 1022-1044: reuse or create the regional NAT IP. -/
def stageNatIp (cfg : ProvisionConfig) (env : Env) : String × Env × List Cmd :=
  let n := generateResourceNames cfg.serviceName
  match env.natIp with
  | some addr => (addr, env, [Cmd.describeCmd .natIp n.natIpName])
  | none =>
      (env.allocNatIp, { env with natIp := some env.allocNatIp },
        [Cmd.describeCmd .natIp n.natIpName,
         Cmd.createCmd .natIp n.natIpName,
         Cmd.describeCmd .natIp n.natIpName])

/-- Lines 1046-1054: reuse or create the Cloud Router. -/
def stageRouter (cfg : ProvisionConfig) (env : Env) : Env × List Cmd :=
  let n := generateResourceNames cfg.serviceName
  if env.router then
    (env, [Cmd.describeCmd .router n.routerName])
  else
    ({ env with router := true },
     [Cmd.describeCmd .router n.routerName, Cmd.createCmd .router n.routerName])

/-- Lines 1056-1064: reuse or create the Cloud NAT gateway. -/
def stageNat (cfg : ProvisionConfig) (env : Env) : Env × List Cmd :=
  let n := generateResourceNames cfg.serviceName
  if env.nat then
    (env, [Cmd.describeCmd .nat n.natName])
  else
    ({ env with nat := true },
     [Cmd.describeCmd .nat n.natName, Cmd.createCmd .nat n.natName])

/-- Lines 1069-1108: enable the VPC Access API, then reuse the connector
    when `READY`, delete and recreate it when `ERROR`, wait without
    creating in any other state, and create it when absent.  A create is
    modelled as leaving the connector `READY`. -/
def stageConnector (cfg : ProvisionConfig) (env : Env) : Env × List Cmd :=
  let vpcConnectorName := cfg.serviceName ++ "-connector"
  let pre := [Cmd.enableApiCmd "vpcaccess.googleapis.com"]
  match env.connector with
  | some st =>
      if st = "READY" then
        (env, pre ++ [Cmd.describeCmd .vpcConnector vpcConnectorName])
      else if st = "ERROR" then
        ({ env with connector := some "READY" },
         pre ++ [Cmd.describeCmd .vpcConnector vpcConnectorName,
                 Cmd.deleteCmd .vpcConnector vpcConnectorName,
                 Cmd.createCmd .vpcConnector vpcConnectorName])
      else
        (env, pre ++ [Cmd.describeCmd .vpcConnector vpcConnectorName])
  | none =>
      ({ env with connector := some "READY" },
       pre ++ [Cmd.describeCmd .vpcConnector vpcConnectorName,
               Cmd.createCmd .vpcConnector vpcConnectorName])

/-- Step 2 (lines 1111-1123): reuse or create the managed SSL certificate. -/
def stageSslCert (cfg : ProvisionConfig) (env : Env) : Env × List Cmd :=
  let n := generateResourceNames cfg.serviceName
  if env.sslCert then
    (env, [Cmd.describeCmd .sslCert n.sslCertName])
  else
    ({ env with sslCert := true },
     [Cmd.describeCmd .sslCert n.sslCertName, Cmd.createCmd .sslCert n.sslCertName])

/-- Step 3 (lines 1125-1137): reuse or create the serverless NEG. -/
def stageNeg (cfg : ProvisionConfig) (env : Env) : Env × List Cmd :=
  let n := generateResourceNames cfg.serviceName
  if env.neg then
    (env, [Cmd.describeCmd .neg n.negName])
  else
    ({ env with neg := true },
     [Cmd.describeCmd .neg n.negName, Cmd.createCmd .neg n.negName])

/-- Step 4 (lines 1139-1160): reuse or create the backend service; the NEG
    is attached only when the backend service was just created. -/
def stageBackend (cfg : ProvisionConfig) (env : Env) : Env × List Cmd :=
  let n := generateResourceNames cfg.serviceName
  if env.backend then
    (env, [Cmd.describeCmd .backend n.backendServiceName])
  else
    ({ env with backend := true },
     [Cmd.describeCmd .backend n.backendServiceName,
      Cmd.createCmd .backend n.backendServiceName,
      Cmd.addBackendCmd n.backendServiceName n.negName])

/-- Step 5 (lines 1162-1174): reuse or create the URL map. -/
def stageUrlMap (cfg : ProvisionConfig) (env : Env) : Env × List Cmd :=
  let n := generateResourceNames cfg.serviceName
  if env.urlMap then
    (env, [Cmd.describeCmd .urlMap n.urlMapName])
  else
    ({ env with urlMap := true },
     [Cmd.describeCmd .urlMap n.urlMapName, Cmd.createCmd .urlMap n.urlMapName])

/-- Step 6 (lines 1176-1188): reuse or create the HTTPS target proxy. -/
def stageTargetProxy (cfg : ProvisionConfig) (env : Env) : Env × List Cmd :=
  let n := generateResourceNames cfg.serviceName
  if env.targetProxy then
    (env, [Cmd.describeCmd .targetProxy n.targetProxyName])
  else
    ({ env with targetProxy := true },
     [Cmd.describeCmd .targetProxy n.targetProxyName,
      Cmd.createCmd .targetProxy n.targetProxyName])

/-- Step 7 (lines 1190-1202): reuse or create the global forwarding rule. -/
def stageForwardingRule (cfg : ProvisionConfig) (env : Env) : Env × List Cmd :=
  let n := generateResourceNames cfg.serviceName
  if env.forwardingRule then
    (env, [Cmd.describeCmd .forwardingRule n.forwardingRuleName])
  else
    ({ env with forwardingRule := true },
     [Cmd.describeCmd .forwardingRule n.forwardingRuleName,
      Cmd.createCmd .forwardingRule n.forwardingRuleName])

/-- `createLoadBalancer(config)` (lines 918-1234): the stage chain, the
    optional NAT block, the final NAT-IP readback, and the returned
    descriptor.  The environment threads provider state; the trace
    records every issued command in order. -/
def createLoadBalancer (cfg : ProvisionConfig) (env : Env) :
    ResourceDescriptor × Env × List Cmd :=
  let n := generateResourceNames cfg.serviceName
  let s1 := stageStaticIp cfg env
  let natPhase :=
    if cfg.useStaticIP then
      let s2 := stageNetwork cfg s1.2.1
      let s3 := stageNatIp cfg s2.2.1
      let s4 := stageRouter cfg s3.2.1
      let s5 := stageNat cfg s4.1
      let s6 := stageConnector cfg s5.1
      (s6.1, s2.2.2 ++ s3.2.2 ++ s4.2 ++ s5.2 ++ s6.2)
    else (s1.2.1, ([] : List Cmd))
  let s7 := stageSslCert cfg natPhase.1
  let s8 := stageNeg cfg s7.1
  let s9 := stageBackend cfg s8.1
  let s10 := stageUrlMap cfg s9.1
  let s11 := stageTargetProxy cfg s10.1
  let s12 := stageForwardingRule cfg s11.1
  let natReadback :=
    if cfg.useStaticIP then
      (s12.1.natIp, ([Cmd.describeCmd .natIp n.natIpName] : List Cmd))
    else (none, ([] : List Cmd))
  let desc : ResourceDescriptor :=
    { ipAddress := s1.1
      staticIpName := n.staticIpName
      sslCertName := n.sslCertName
      negName := n.negName
      backendServiceName := n.backendServiceName
      urlMapName := n.urlMapName
      targetProxyName := n.targetProxyName
      forwardingRuleName := n.forwardingRuleName
      natIpName := some n.natIpName
      routerName := some n.routerName
      natName := some n.natName
      vpcConnectorName :=
        if cfg.useStaticIP then some (cfg.serviceName ++ "-connector") else none
      natIpAddress := natReadback.1 }
  (desc, s12.1,
    s1.2.2 ++ natPhase.2 ++ s7.2 ++ s8.2 ++ s9.2 ++ s10.2 ++ s11.2
      ++ s12.2 ++ natReadback.2)

/-- The resource kinds of the create commands of a trace, in order. -/
def createdKinds (t : List Cmd) : List ResourceKind :=
  t.filterMap fun c => match c with | Cmd.createCmd k _ => some k | _ => none

/-- A provider with no resources of this configuration; the default
    network exists (the usual state of a cloud project). -/
def freshEnv (allocIp allocNatIp : String) : Env :=
  { staticIp := none, defaultNetwork := true, customNetwork := false,
    fwInternal := false, fwSsh := false, fwHttps := false,
    natIp := none, router := false, nat := false, connector := none,
    sslCert := false, neg := false, backend := false, urlMap := false,
    targetProxy := false, forwardingRule := false,
    allocIp := allocIp, allocNatIp := allocNatIp }

/-! ## Teardown engine (src/src/utils.js, `deleteLoadBalancer`) -/

/-- The configuration fields `deleteLoadBalancer` destructures. -/
structure DeleteConfig where
  projectId : String
  region : String
  loadBalancerResources : Option ResourceDescriptor
  deriving DecidableEq, Repr

/-- The `deletionSteps` list (lines 1245-1305): six fixed steps, then the
    NAT gateway, VPC connector, router and NAT IP steps whenever the
    descriptor carries the corresponding name, and the inbound static IP
    always last. -/
def deletionSteps (r : ResourceDescriptor) : List (ResourceKind × String) :=
  [(ResourceKind.forwardingRule, r.forwardingRuleName),
   (ResourceKind.targetProxy, r.targetProxyName),
   (ResourceKind.urlMap, r.urlMapName),
   (ResourceKind.backend, r.backendServiceName),
   (ResourceKind.neg, r.negName),
   (ResourceKind.sslCert, r.sslCertName)]
  ++ (match r.natName with | some nm => [(ResourceKind.nat, nm)] | none => [])
  ++ (match r.vpcConnectorName with
      | some nm => [(ResourceKind.vpcConnector, nm)] | none => [])
  ++ (match r.routerName with | some nm => [(ResourceKind.router, nm)] | none => [])
  ++ (match r.natIpName with | some nm => [(ResourceKind.natIp, nm)] | none => [])
  ++ [(ResourceKind.staticIp, r.staticIpName)]

/-- Outcome of one deletion command: success, an error whose message
    contains `was not found`, or any other error. -/
inductive DeleteOutcome
  | success
  | notFound
  | failure
  deriving DecidableEq, Repr

/-- The deletion loop (lines 1309-1323): every step is attempted; only a
    non-"not found" failure increments the error count. -/
def countDeletionErrors :
    List (ResourceKind × String) → (Nat → DeleteOutcome) → Nat → Nat
  | [], _, _ => 0
  | _ :: rest, outcome, i =>
      (match outcome i with | DeleteOutcome.failure => 1 | _ => 0)
        + countDeletionErrors rest outcome (i + 1)

/-- `deleteLoadBalancer(config)` (lines 1236-1332): returns `undefined`
    (modelled `none`) and attempts nothing when no descriptor is present;
    otherwise attempts every deletion step and returns the error count.
    The second component is the list of attempted deletion commands. -/
def deleteLoadBalancer (cfg : DeleteConfig) (outcome : Nat → DeleteOutcome) :
    Option Nat × List (ResourceKind × String) :=
  match cfg.loadBalancerResources with
  | none => (none, [])
  | some r =>
      let steps := deletionSteps r
      (some (countDeletionErrors steps outcome 0), steps)

/-- The deletion order by resource kind. -/
def deletionKinds (r : ResourceDescriptor) : List ResourceKind :=
  (deletionSteps r).map Prod.fst

/-! ## Readiness poller (src/src/utils.js, `waitForResourceReady`) -/

/-- Outcome of one status query: the status string the describe prints,
    or a thrown error. -/
inductive PollResult
  | ok (status : String)
  | err (msg : String)
  deriving DecidableEq, Repr

/-- The polling loop (lines 607-648).  `poll i` is the outcome of the
    i-th status query and `dur i` the real time in ms that query takes;
    on a successful non-ready query the code additionally sleeps 30000 ms,
    on a caught error it loops immediately.  `t` is elapsed time, checked
    against `maxWaitMs` at the top of each iteration.  Fuel makes the
    recursion structural; `none` means the fuel ran out, which the
    theorems rule out whenever every query takes at least 1 ms.  The
    result carries the Boolean return value and the number of queries
    issued. -/
def waitLoop (poll : Nat → PollResult) (dur : Nat → Nat) (maxWaitMs : Nat) :
    Nat → Nat → Nat → Option (Bool × Nat)
  | fuel, i, t =>
      if t < maxWaitMs then
        match fuel with
        | 0 => none
        | fuel + 1 =>
            match poll i with
            | PollResult.ok s =>
                if s = "ACTIVE" then some (true, i + 1)
                else waitLoop poll dur maxWaitMs fuel (i + 1) (t + dur i + 30000)
            | PollResult.err _ => waitLoop poll dur maxWaitMs fuel (i + 1) (t + dur i)
      else some (false, i)

/-- `waitForResourceReady(resourceType, resourceName, maxWaitMinutes)`
    (lines 600-652) for the known resource types, whose readiness test is
    `status === ACTIVE`: the loop with `maxWaitMs = maxWaitMinutes*60*1000`
    and enough fuel for any run whose queries each take at least 1 ms. -/
def waitForResourceReady (poll : Nat → PollResult) (dur : Nat → Nat)
    (maxWaitMinutes : Nat) : Option (Bool × Nat) :=
  let maxWaitMs := maxWaitMinutes * 60 * 1000
  waitLoop poll dur maxWaitMs (maxWaitMs + 1) 0 0

/-! ## Migration orchestrator (domainMigration module) -/

/-- The result record of `detectMigrationNeeded`. -/
structure MigrationCheck where
  needed : Bool
  reason : String
  deriving DecidableEq, Repr

/-- The configuration fields the migration module reads and writes. -/
structure MigrationConfig where
  projectId : String
  region : String
  serviceName : String
  customDomain : Option String
  loadBalancerResources : Option ResourceDescriptor
  enableLoadBalancerMigration : Bool
  useLoadBalancer : Bool
  useManagedSSL : Bool
  useStaticIP : Bool
  createStaticOutboundIp : Bool
  deriving DecidableEq, Repr

/-- Whitespace for the purposes of `trim`. -/
def isWhitespaceChar (c : Char) : Bool :=
  decide (c = ' ' ∨ c = '\t' ∨ c = '\n' ∨ c = '\r')

/-- JavaScript `String.prototype.trim`, transcribed over character lists. -/
def strTrim (s : String) : String :=
  String.mk
    (((s.data.dropWhile isWhitespaceChar).reverse.dropWhile isWhitespaceChar).reverse)

/-- `detectMigrationNeeded(config)` (lines 11-60).  `domainQuery` is the
    outcome of the domain-mapping describe; the Boolean in the result
    records whether that provider query was issued at all. -/
def detectMigrationNeeded (cfg : MigrationConfig)
    (domainQuery : Except String String) : MigrationCheck × Bool :=
  match cfg.customDomain with
  | none => ({ needed := false, reason := "no_custom_domain" }, false)
  | some _ =>
      if cfg.loadBalancerResources.isSome then
        ({ needed := false, reason := "already_using_load_balancer" }, false)
      else
        match domainQuery with
        | Except.ok out =>
            if strTrim out ≠ "" then
              ({ needed := true, reason := "has_domain_mapping" }, true)
            else
              ({ needed := false, reason := "no_existing_domain_mapping" }, true)
        | Except.error _ => ({ needed := false, reason := "check_failed" }, true)

/-- `checkMigrationConfig(config, migrationInfo)` (lines 75-104). -/
def checkMigrationConfig (cfg : MigrationConfig)
    (migrationInfo : MigrationCheck) : Bool :=
  if !migrationInfo.needed then false
  else
    let migrationEnabled := cfg.enableLoadBalancerMigration
    let useLoadBalancerWithoutResources :=
      cfg.useLoadBalancer && cfg.loadBalancerResources.isNone
    if migrationEnabled || useLoadBalancerWithoutResources then true else false

/-- Outcome of the domain-mapping delete call: success, an error whose
    message contains `NOT_FOUND`, or any other error. -/
inductive RemovalOutcome
  | success
  | notFound
  | failure (msg : String)
  deriving DecidableEq, Repr

/-- `removeExistingDomainMapping(config)` (lines 143-165): `NOT_FOUND`
    counts as success; any other error returns `false`. -/
def removeExistingDomainMapping : RemovalOutcome → Bool
  | RemovalOutcome.success => true
  | RemovalOutcome.notFound => true
  | RemovalOutcome.failure _ => false

/-- The `migrationResult` record of `performMigration`. -/
structure MigrationResult where
  success : Bool
  loadBalancerResources : Option ResourceDescriptor
  error : Option String
  rollbackNeeded : Bool
  deriving DecidableEq, Repr

/-- The externally visible calls `performMigration` makes; `rollback r`
    is the invocation of `deleteLoadBalancer` with the configuration
    whose `loadBalancerResources` is exactly `r`. -/
inductive MigEvent
  | getDomainInfo
  | createResources
  | removeMapping
  | rollback (resources : ResourceDescriptor)
  deriving DecidableEq, Repr

/-- Lines 189-193 of `performMigration`: the in-place mutation of the
    caller's config object before resource creation. -/
def mutateConfigForMigration (cfg : MigrationConfig) : MigrationConfig :=
  { cfg with
      useLoadBalancer := true
      useManagedSSL := true
      useStaticIP := true
      createStaticOutboundIp := cfg.createStaticOutboundIp || false }

/-- `performMigration(config)` (lines 172-253).  `createOutcome` is the
    outcome of `createLoadBalancer`, `removalOutcome` the outcome of the
    legacy domain-mapping delete.  Returns the (mutated) config object,
    the `migrationResult`, and the event trace.  `getDomainMappingInfo`
    (step 1) catches its own errors and never throws. -/
def performMigration (cfg : MigrationConfig)
    (createOutcome : Except String ResourceDescriptor)
    (removalOutcome : RemovalOutcome) :
    MigrationConfig × MigrationResult × List MigEvent :=
  let cfg1 := mutateConfigForMigration cfg
  match createOutcome with
  | Except.error e =>
      (cfg1,
       { success := false, loadBalancerResources := none,
         error := some e, rollbackNeeded := false },
       [MigEvent.getDomainInfo, MigEvent.createResources])
  | Except.ok res =>
      if removeExistingDomainMapping removalOutcome then
        (cfg1,
         { success := true, loadBalancerResources := some res,
           error := none, rollbackNeeded := true },
         [MigEvent.getDomainInfo, MigEvent.createResources,
          MigEvent.removeMapping])
      else
        (cfg1,
         { success := false, loadBalancerResources := some res,
           error := some "Failed to remove existing domain mapping",
           rollbackNeeded := true },
         [MigEvent.getDomainInfo, MigEvent.createResources,
          MigEvent.removeMapping, MigEvent.rollback res])

/-- `migrateDomainMapping(config)` (lines 260-299): detection, the
    config-flag gate, then migration; on success the descriptor and the
    load-balancer flags are merged into the returned configuration, on
    failure the (mutated) config object itself is returned. -/
def migrateDomainMapping (cfg : MigrationConfig)
    (domainQuery : Except String String)
    (createOutcome : Except String ResourceDescriptor)
    (removalOutcome : RemovalOutcome) : MigrationConfig :=
  let dm := detectMigrationNeeded cfg domainQuery
  let migrationInfo := dm.1
  if !migrationInfo.needed then cfg
  else if !(checkMigrationConfig cfg migrationInfo) then cfg
  else
    let pm := performMigration cfg createOutcome removalOutcome
    let cfg1 := pm.1
    let migrationResult := pm.2.1
    if migrationResult.success then
      { cfg1 with
          useLoadBalancer := true
          useManagedSSL := true
          useStaticIP := true
          loadBalancerResources := migrationResult.loadBalancerResources }
    else cfg1

/-! ## Sample values used by concrete witnesses -/

/-- The descriptor a no-NAT provisioning run produces for service `app`. -/
def sampleDescriptor : ResourceDescriptor :=
  { ipAddress := "1.2.3.4"
    staticIpName := "app-ip"
    sslCertName := "app-ssl-cert"
    negName := "app-neg"
    backendServiceName := "app-backend"
    urlMapName := "app-url-map"
    targetProxyName := "app-https-proxy"
    forwardingRuleName := "app-https-rule"
    natIpName := some "app-nat-ip"
    routerName := some "app-router"
    natName := some "app-nat"
    vpcConnectorName := none
    natIpAddress := none }

/-- A legacy deployment: custom domain, no load-balancer resources,
    migration enabled through the explicit flag. -/
def sampleMigrationConfig : MigrationConfig :=
  { projectId := "p", region := "r", serviceName := "app"
    customDomain := some "app.example.com", loadBalancerResources := none
    enableLoadBalancerMigration := true, useLoadBalancer := false
    useManagedSSL := false, useStaticIP := false, createStaticOutboundIp := false }

/-- The same deployment with no custom domain configured. -/
def cfgNoDomain : MigrationConfig :=
  { sampleMigrationConfig with customDomain := none }

/-- The same deployment already holding a resource descriptor. -/
def cfgWithResources : MigrationConfig :=
  { sampleMigrationConfig with loadBalancerResources := some sampleDescriptor }

/-- A persisted descriptor carrying none of the NAT-related names. -/
def sampleDescriptorNoNat : ResourceDescriptor :=
  { sampleDescriptor with
      natIpName := none, routerName := none, natName := none }

/-! ## Characterizations of the provisioning run (used for idempotence) -/

/-- The VPC connector state after one provisioning pass: a missing or
    `ERROR` connector has been (re)created `READY`; any other state is
    left as found. -/
def connectorAfter : Option String → String
  | none => "READY"
  | some st => if st = "ERROR" then "READY" else st

/-- The provider state after one `createLoadBalancer` run. -/
def envAfter (cfg : ProvisionConfig) (env : Env) : Env :=
  if cfg.useStaticIP then
    { env with
        staticIp := some (env.staticIp.getD env.allocIp)
        customNetwork := if env.defaultNetwork then env.customNetwork else true
        fwInternal := if env.defaultNetwork then env.fwInternal else true
        fwSsh := if env.defaultNetwork then env.fwSsh else true
        fwHttps := if env.defaultNetwork then env.fwHttps else true
        natIp := some (env.natIp.getD env.allocNatIp)
        router := true
        nat := true
        connector := some (connectorAfter env.connector)
        sslCert := true, neg := true, backend := true
        urlMap := true, targetProxy := true, forwardingRule := true }
  else
    { env with
        staticIp := some (env.staticIp.getD env.allocIp)
        sslCert := true, neg := true, backend := true
        urlMap := true, targetProxy := true, forwardingRule := true }

/-- The descriptor one `createLoadBalancer` run returns. -/
def descOf (cfg : ProvisionConfig) (env : Env) : ResourceDescriptor :=
  let n := generateResourceNames cfg.serviceName
  { ipAddress := env.staticIp.getD env.allocIp
    staticIpName := n.staticIpName
    sslCertName := n.sslCertName
    negName := n.negName
    backendServiceName := n.backendServiceName
    urlMapName := n.urlMapName
    targetProxyName := n.targetProxyName
    forwardingRuleName := n.forwardingRuleName
    natIpName := some n.natIpName
    routerName := some n.routerName
    natName := some n.natName
    vpcConnectorName :=
      if cfg.useStaticIP then some (cfg.serviceName ++ "-connector") else none
    natIpAddress :=
      if cfg.useStaticIP then some (env.natIp.getD env.allocNatIp) else none }

/-- Commands that change provider state (create, delete, attach), as
    opposed to describe queries and API enablement. -/
def isMutatingCmd : Cmd → Bool
  | Cmd.createCmd _ _ => true
  | Cmd.deleteCmd _ _ => true
  | Cmd.addBackendCmd _ _ => true
  | _ => false

/-! ## Counting lemmas for the teardown loop -/

theorem countDeletionErrors_range (outcome : Nat → DeleteOutcome) :
    ∀ (l : List (ResourceKind × String)) (i : Nat),
      countDeletionErrors l outcome i =
        (List.range l.length).countP
          (fun k => decide (outcome (i + k) = DeleteOutcome.failure)) := by
  intro l
  induction l with
  | nil => intro i; simp [countDeletionErrors]
  | cons a rest ih =>
      intro i
      rw [countDeletionErrors, ih (i + 1)]
      simp only [List.length_cons, List.range_succ_eq_map, List.countP_cons]
      rw [List.countP_map]
      have hcg : List.countP
          ((fun k => decide (outcome (i + k) = DeleteOutcome.failure)) ∘ Nat.succ)
          (List.range rest.length) =
        List.countP (fun k => decide (outcome ((i + 1) + k) = DeleteOutcome.failure))
          (List.range rest.length) := by
        apply List.countP_congr
        intro k _
        simp only [Function.comp_apply]
        have h2 : i + Nat.succ k = i + 1 + k := by omega
        rw [h2]
      rw [hcg]
      cases hi : outcome i <;> simp [hi, Nat.add_comm]

theorem countDeletionErrors_zero (outcome : Nat → DeleteOutcome) :
    ∀ (l : List (ResourceKind × String)) (i : Nat),
      (∀ j, i ≤ j → j < i + l.length → outcome j ≠ DeleteOutcome.failure) →
      countDeletionErrors l outcome i = 0 := by
  intro l
  induction l with
  | nil => intro i _; simp [countDeletionErrors]
  | cons a rest ih =>
      intro i h
      have hhead : outcome i ≠ DeleteOutcome.failure := h i (le_refl i) (by simp)
      have htail : countDeletionErrors rest outcome (i + 1) = 0 :=
        ih (i + 1) (fun j h1 h2 => h j (by omega) (by simp at h2 ⊢; omega))
      rw [countDeletionErrors, htail]
      cases hi : outcome i
      · simp
      · simp
      · exact absurd hi hhead

theorem countDeletionErrors_one (outcome : Nat → DeleteOutcome) :
    ∀ (l : List (ResourceKind × String)) (i j : Nat),
      i ≤ j → j < i + l.length → outcome j = DeleteOutcome.failure →
      (∀ k, i ≤ k → k < i + l.length → k ≠ j → outcome k ≠ DeleteOutcome.failure) →
      countDeletionErrors l outcome i = 1 := by
  intro l
  induction l with
  | nil => intro i j h1 h2; simp at h2; omega
  | cons a rest ih =>
      intro i j h1 h2 hj hk
      by_cases hij : i = j
      · have htail : countDeletionErrors rest outcome (i + 1) = 0 := by
          apply countDeletionErrors_zero
          intro k hk1 hk2
          exact hk k (by omega) (by simp at hk2 ⊢; omega) (by omega)
        subst hij
        rw [countDeletionErrors, htail, hj]
      · have hhead : outcome i ≠ DeleteOutcome.failure :=
          hk i (le_refl i) (by simp) hij
        have htail : countDeletionErrors rest outcome (i + 1) = 1 := by
          apply ih (i + 1) j (by omega) (by simp at h2 ⊢; omega) hj
          intro k hk1 hk2 hk3
          exact hk k (by omega) (by simp at hk2 ⊢; omega) hk3
        rw [countDeletionErrors, htail]
        cases hi : outcome i
        · simp
        · simp
        · exact absurd hi hhead

/-! ## Claim theorems -/

/-- C10: `deleteLoadBalancer` called with a configuration whose
    `loadBalancerResources` is absent returns immediately with
    `undefined` (modelled `none`, not a numeric error count) and issues
    no deletion command at all. -/
theorem C10_delete_without_descriptor (projectId region : String)
    (outcome : Nat → DeleteOutcome) :
    deleteLoadBalancer ⟨projectId, region, none⟩ outcome = (none, []) := rfl

/-- C3: given a non-null descriptor, teardown never throws (it is a total
    function into an error count), attempts exactly the full deletion-step
    list regardless of outcomes, returns the number of steps failing with
    a non-"not found" error, returns 0 when every step reports "not
    found", and returns 1 when exactly one step fails otherwise while all
    steps are still attempted. -/
theorem C3_teardown_best_effort (p reg : String) (r : ResourceDescriptor)
    (outcome : Nat → DeleteOutcome) :
    (deleteLoadBalancer ⟨p, reg, some r⟩ outcome).2 = deletionSteps r
  ∧ (deleteLoadBalancer ⟨p, reg, some r⟩ outcome).1 =
      some ((List.range (deletionSteps r).length).countP
        (fun k => decide (outcome k = DeleteOutcome.failure)))
  ∧ ((∀ i, i < (deletionSteps r).length → outcome i = DeleteOutcome.notFound) →
      (deleteLoadBalancer ⟨p, reg, some r⟩ outcome).1 = some 0)
  ∧ (∀ j, j < (deletionSteps r).length → outcome j = DeleteOutcome.failure →
      (∀ i, i < (deletionSteps r).length → i ≠ j → outcome i = DeleteOutcome.success) →
      (deleteLoadBalancer ⟨p, reg, some r⟩ outcome).1 = some 1) := by
  refine ⟨rfl, ?_, ?_, ?_⟩
  · show some (countDeletionErrors (deletionSteps r) outcome 0) = _
    rw [countDeletionErrors_range]
    simp
  · intro h
    show some (countDeletionErrors (deletionSteps r) outcome 0) = some 0
    rw [countDeletionErrors_zero outcome (deletionSteps r) 0
      (fun j _ h2 => by rw [h j (by omega)]; intro hc; cases hc)]
  · intro j hj hfail hothers
    show some (countDeletionErrors (deletionSteps r) outcome 0) = some 1
    rw [countDeletionErrors_one outcome (deletionSteps r) 0 j (by omega) (by omega) hfail
      (fun k _ hk2 hkj => by
        rw [hothers k (by omega) hkj]; intro hc; cases hc)]

/-- Witness for C3 at a concrete descriptor: when every deletion call
    reports "not found" the error count is 0. -/
theorem C3_witness :
    (deleteLoadBalancer ⟨"p", "r", some sampleDescriptor⟩
        (fun _ => DeleteOutcome.notFound)).1 = some 0 :=
  (C3_teardown_best_effort "p" "r" sampleDescriptor
    (fun _ => DeleteOutcome.notFound)).2.2.1 (fun _ _ => rfl)

/-- C4: when resource creation succeeds and the legacy domain-mapping
    deletion fails with a non-"not found" error, `performMigration`
    invokes the teardown engine with exactly the resources created in
    that run, and the returned result has `success` false and the
    rollback flag (spec `rollbackPerformed`, code `rollbackNeeded`)
    true. -/
theorem C4_rollback_on_partial_failure (cfg : MigrationConfig)
    (res : ResourceDescriptor) (m : String) :
    ((performMigration cfg (Except.ok res) (RemovalOutcome.failure m)).2.1).success = false
  ∧ ((performMigration cfg (Except.ok res) (RemovalOutcome.failure m)).2.1).rollbackNeeded = true
  ∧ (performMigration cfg (Except.ok res) (RemovalOutcome.failure m)).2.2 =
      [MigEvent.getDomainInfo, MigEvent.createResources, MigEvent.removeMapping,
       MigEvent.rollback res] := by
  refine ⟨rfl, rfl, rfl⟩

/-- C6: `checkMigrationConfig` is false whenever the decision says the
    migration is not needed, and is true exactly when it is needed and
    either the explicit migration flag is set or `useLoadBalancer` is set
    with no existing load-balancer resources. -/
theorem C6_checkMigrationConfig_gate (cfg : MigrationConfig)
    (info : MigrationCheck) :
    checkMigrationConfig cfg info =
      (info.needed && (cfg.enableLoadBalancerMigration
        || (cfg.useLoadBalancer && cfg.loadBalancerResources.isNone))) := by
  cases hn : info.needed <;>
    cases hr : cfg.loadBalancerResources <;>
      simp [checkMigrationConfig, hn, hr]

/-- C7: `detectMigrationNeeded` returns reason `no_custom_domain` with no
    provider query when the custom domain is null; reason
    `already_using_load_balancer` (again without a query) when a
    descriptor is already present; and fails safe to `check_failed`,
    needed false, when the provider query itself throws. -/
theorem C7_detect_migration_cases (cfg : MigrationConfig)
    (q : Except String String) (d e : String) :
    (cfg.customDomain = none →
      detectMigrationNeeded cfg q =
        ({ needed := false, reason := "no_custom_domain" }, false))
  ∧ (cfg.customDomain = some d → cfg.loadBalancerResources.isSome →
      detectMigrationNeeded cfg q =
        ({ needed := false, reason := "already_using_load_balancer" }, false))
  ∧ (cfg.customDomain = some d → cfg.loadBalancerResources = none →
      q = Except.error e →
      detectMigrationNeeded cfg q =
        ({ needed := false, reason := "check_failed" }, true)) := by
  refine ⟨?_, ?_, ?_⟩
  · intro h; simp [detectMigrationNeeded, h]
  · intro h hr; simp [detectMigrationNeeded, h, hr]
  · intro h hr hq; simp [detectMigrationNeeded, h, hr, hq]

/-- Witness for C7 at concrete configurations. -/
theorem C7_witness :
    detectMigrationNeeded cfgNoDomain (Except.ok "x") =
      ({ needed := false, reason := "no_custom_domain" }, false)
  ∧ detectMigrationNeeded cfgWithResources (Except.ok "x") =
      ({ needed := false, reason := "already_using_load_balancer" }, false)
  ∧ detectMigrationNeeded sampleMigrationConfig (Except.error "boom") =
      ({ needed := false, reason := "check_failed" }, true) :=
  ⟨(C7_detect_migration_cases cfgNoDomain (Except.ok "x") "d" "e").1 rfl,
   (C7_detect_migration_cases cfgWithResources (Except.ok "x")
      "app.example.com" "e").2.1 rfl rfl,
   (C7_detect_migration_cases sampleMigrationConfig (Except.error "boom")
      "app.example.com" "boom").2.2 rfl rfl rfl⟩

/-- C5 counterexample: when a needed, enabled migration fails (resource
    creation throws), `migrateDomainMapping` does NOT return the caller's
    original configuration unchanged — `performMigration` has already
    mutated the config object, forcing `useLoadBalancer` (and the other
    load-balancer flags) to true before attempting creation. -/
theorem C5_counterexample :
    migrateDomainMapping sampleMigrationConfig (Except.ok "x")
        (Except.error "creation failed") RemovalOutcome.success
      ≠ sampleMigrationConfig
  ∧ (migrateDomainMapping sampleMigrationConfig (Except.ok "x")
        (Except.error "creation failed") RemovalOutcome.success).useLoadBalancer = true
  ∧ sampleMigrationConfig.useLoadBalancer = false := by
  refine ⟨?_, rfl, rfl⟩
  decide

/-- C5 (amended): `migrateDomainMapping` returns the original
    configuration unchanged when migration is skipped (not needed, or not
    enabled by the flags); when migration proceeds and fails it returns
    the caller's configuration with the load-balancer flags
    `useLoadBalancer`, `useManagedSSL` and `useStaticIP` mutated to true
    (the in-place mutation `performMigration` applies before creating
    resources) but with `loadBalancerResources` unchanged; only on
    success is the resource descriptor merged in, together with those
    flags. -/
theorem C5_migrate_config_frame (cfg : MigrationConfig)
    (q : Except String String) (c : Except String ResourceDescriptor)
    (rm : RemovalOutcome) :
    (checkMigrationConfig cfg (detectMigrationNeeded cfg q).1 = false →
        migrateDomainMapping cfg q c rm = cfg)
  ∧ (checkMigrationConfig cfg (detectMigrationNeeded cfg q).1 = true →
       (∀ e, c = Except.error e →
          migrateDomainMapping cfg q c rm = mutateConfigForMigration cfg)
     ∧ (∀ res, c = Except.ok res → removeExistingDomainMapping rm = false →
          migrateDomainMapping cfg q c rm = mutateConfigForMigration cfg)
     ∧ (∀ res, c = Except.ok res → removeExistingDomainMapping rm = true →
          migrateDomainMapping cfg q c rm =
            { mutateConfigForMigration cfg with
                loadBalancerResources := some res })
     ∧ (mutateConfigForMigration cfg).loadBalancerResources
          = cfg.loadBalancerResources
     ∧ (mutateConfigForMigration cfg).useLoadBalancer = true
     ∧ (mutateConfigForMigration cfg).useManagedSSL = true
     ∧ (mutateConfigForMigration cfg).useStaticIP = true) := by
  constructor
  · intro hcheck
    by_cases hn : (detectMigrationNeeded cfg q).1.needed
    · simp [migrateDomainMapping, hn, hcheck]
    · simp [migrateDomainMapping, hn]
  · intro hcheck
    have hn : (detectMigrationNeeded cfg q).1.needed = true := by
      by_contra hcon
      rw [Bool.not_eq_true] at hcon
      rw [checkMigrationConfig, hcon] at hcheck
      simp at hcheck
    refine ⟨?_, ?_, ?_, rfl, rfl, rfl, rfl⟩
    · intro e hce
      subst hce
      simp [migrateDomainMapping, hn, hcheck, performMigration]
    · intro res hres hrm
      subst hres
      simp [migrateDomainMapping, hn, hcheck, performMigration, hrm]
    · intro res hres hrm
      subst hres
      simp [migrateDomainMapping, hn, hcheck, performMigration, hrm,
        mutateConfigForMigration]

/-- Witness for C5 (amended) at concrete inputs: a config with no custom
    domain is returned unchanged; an enabled migration whose creation
    step throws returns the mutated config. -/
theorem C5_witness :
    migrateDomainMapping cfgNoDomain (Except.ok "x") (Except.error "boom")
        RemovalOutcome.success = cfgNoDomain
  ∧ migrateDomainMapping sampleMigrationConfig (Except.ok "x")
        (Except.error "boom") RemovalOutcome.success
      = mutateConfigForMigration sampleMigrationConfig :=
  ⟨(C5_migrate_config_frame cfgNoDomain (Except.ok "x") (Except.error "boom")
      RemovalOutcome.success).1 (by decide),
   ((C5_migrate_config_frame sampleMigrationConfig (Except.ok "x")
      (Except.error "boom") RemovalOutcome.success).2 (by decide)).1 "boom" rfl⟩

/-- C1 counterexample: at a concrete configuration, teardown of a freshly
    provisioned descriptor does not issue its deletions in exactly the
    reverse of the creation order — with outbound NAT the Cloud NAT
    gateway is deleted before the VPC connector although the connector
    was created after the gateway, and without outbound NAT the
    NAT-related deletion steps are attempted rather than skipped, because
    the provisioning result unconditionally carries the NAT resource
    names. -/
theorem C1_counterexample :
    (deletionKinds
        (createLoadBalancer ⟨"proj", "app", "app.example.com", "reg", true⟩
          (freshEnv "1.2.3.4" "5.6.7.8")).1
      ≠ (createdKinds
          (createLoadBalancer ⟨"proj", "app", "app.example.com", "reg", true⟩
            (freshEnv "1.2.3.4" "5.6.7.8")).2.2).reverse)
  ∧ ResourceKind.nat ∈ deletionKinds
      (createLoadBalancer ⟨"proj", "app", "app.example.com", "reg", false⟩
        (freshEnv "1.2.3.4" "5.6.7.8")).1 := by
  refine ⟨?_, by decide⟩
  decide

set_option maxHeartbeats 1000000 in
open ResourceKind in
/-- C1 (amended): teardown deletes in the fixed order forwarding rule,
    target proxy, URL map, backend service, NEG, SSL certificate, then
    the present NAT-related resources (NAT gateway, VPC connector,
    router, NAT IP), then the static IP.  For a freshly provisioned
    descriptor with outbound NAT this is the reverse of the creation
    order except that the NAT gateway is deleted before the VPC connector
    (which was created after it); for one provisioned without outbound
    NAT the NAT-gateway, router and NAT-IP deletions are still attempted,
    because the descriptor unconditionally carries those names; a
    descriptor lacking all NAT-related names is torn down in exactly the
    reverse of the no-NAT creation order. -/
theorem C1_teardown_order (p s d reg a b : String) :
    createdKinds (createLoadBalancer ⟨p, s, d, reg, true⟩ (freshEnv a b)).2.2 =
      [staticIp, natIp, router, nat, vpcConnector,
       sslCert, neg, backend, urlMap, targetProxy, forwardingRule]
  ∧ deletionKinds (createLoadBalancer ⟨p, s, d, reg, true⟩ (freshEnv a b)).1 =
      [forwardingRule, targetProxy, urlMap, backend, neg, sslCert,
       nat, vpcConnector, router, natIp, staticIp]
  ∧ createdKinds (createLoadBalancer ⟨p, s, d, reg, false⟩ (freshEnv a b)).2.2 =
      [staticIp, sslCert, neg, backend, urlMap, targetProxy, forwardingRule]
  ∧ deletionKinds (createLoadBalancer ⟨p, s, d, reg, false⟩ (freshEnv a b)).1 =
      [forwardingRule, targetProxy, urlMap, backend, neg, sslCert,
       nat, router, natIp, staticIp]
  ∧ (∀ r : ResourceDescriptor, r.natName = none → r.vpcConnectorName = none →
       r.routerName = none → r.natIpName = none →
       deletionKinds r =
         [forwardingRule, targetProxy, urlMap, backend, neg, sslCert, staticIp]) := by
  refine ⟨rfl, rfl, rfl, rfl, ?_⟩
  intro r h1 h2 h3 h4
  simp [deletionKinds, deletionSteps, h1, h2, h3, h4]

/-- Witness for C1 (amended): a descriptor without NAT-related names is
    torn down in exactly the reverse of the no-NAT creation order. -/
theorem C1_witness :
    deletionKinds sampleDescriptorNoNat =
      [ResourceKind.forwardingRule, ResourceKind.targetProxy,
       ResourceKind.urlMap, ResourceKind.backend, ResourceKind.neg,
       ResourceKind.sslCert, ResourceKind.staticIp] :=
  (C1_teardown_order "p" "s" "d" "r" "a" "b").2.2.2.2
    sampleDescriptorNoNat rfl rfl rfl rfl

/-! ## Sanitization lemmas for C9 -/

theorem dropWhile_head_false (p : Char → Bool) :
    ∀ (l : List Char) (c : Char), (l.dropWhile p).head? = some c → p c = false := by
  intro l
  induction l with
  | nil => intro c h; simp [List.dropWhile] at h
  | cons a t ih =>
      intro c h
      by_cases hp : p a
      · rw [List.dropWhile_cons_of_pos hp] at h
        exact ih c h
      · rw [List.dropWhile_cons_of_neg hp] at h
        simp at h
        subst h
        simpa using hp

theorem collapseHyphens_head (l : List Char) (c : Char)
    (h : l.head? = some c) (hc : c ≠ '-') :
    (collapseHyphens l).head? = some c := by
  match l with
  | [] => simp at h
  | [a] =>
      simp at h
      subst h
      rfl
  | a :: b :: t =>
      simp at h
      subst h
      rw [collapseHyphens, if_neg]
      · rfl
      · rintro ⟨h1, _⟩
        exact hc h1

theorem dropTrailingHyphen_head (l : List Char) (c : Char)
    (h : l.head? = some c) (hc : c ≠ '-') :
    (dropTrailingHyphen l).head? = some c ∧ dropTrailingHyphen l ≠ [] := by
  unfold dropTrailingHyphen
  by_cases hl : l.getLast? = some '-'
  · rw [if_pos hl]
    match l with
    | [] => simp at h
    | [a] =>
        simp at h hl
        subst h
        exact absurd hl hc
    | a :: b :: t =>
        simp at h
        subst h
        rw [List.dropLast_cons₂]
        exact ⟨rfl, by simp⟩
  · rw [if_neg hl]
    refine ⟨h, ?_⟩
    intro hnil
    subst hnil
    simp at h
theorem take_succ_head (l : List Char) (n : Nat) :
    (l.take (n + 1)).head? = l.head? := by
  cases l <;> rfl

theorem dropTrailingHyphen_length_le (l : List Char) :
    (dropTrailingHyphen l).length ≤ l.length := by
  unfold dropTrailingHyphen
  by_cases hl : l.getLast? = some '-'
  · rw [if_pos hl, List.length_dropLast]
    omega
  · rw [if_neg hl]

theorem isLowerAlpha_ne_hyphen (c : Char) (h : isLowerAlpha c = true) :
    c ≠ '-' := by
  intro hc
  subst hc
  simp [isLowerAlpha] at h

theorem sanitizeSteps_head (l : List Char) (c : Char)
    (h : (sanitizeSteps l).head? = some c) : isLowerAlpha c = true := by
  unfold sanitizeSteps at h
  rcases hd : (((l.map Char.toLower).map
      (fun c => if isValidNameChar c then c else '-')).dropWhile
        (fun c => !(isLowerAlpha c))).head? with _ | c0
  · rcases hnil : ((l.map Char.toLower).map
        (fun c => if isValidNameChar c then c else '-')).dropWhile
          (fun c => !(isLowerAlpha c)) with _ | ⟨x, xs⟩
    · rw [hnil] at h
      simp [collapseHyphens, dropTrailingHyphen] at h
    · rw [hnil] at hd
      simp at hd
  · have hlow : isLowerAlpha c0 = true := by
      have := dropWhile_head_false (fun c => !(isLowerAlpha c)) _ _ hd
      simpa using this
    have hne : c0 ≠ '-' := isLowerAlpha_ne_hyphen c0 hlow
    have h1 := collapseHyphens_head _ _ hd hne
    have h2 := (dropTrailingHyphen_head _ _ h1 hne).1
    rw [show (63 : Nat) = 62 + 1 from rfl, take_succ_head, h2] at h
    simp at h
    subst h
    exact hlow

theorem sanitizeSteps_length_le (l : List Char) :
    (sanitizeSteps l).length ≤ 63 := by
  unfold sanitizeSteps
  rw [List.length_take]
  omega

theorem sanitizeServiceName_spec (s : String) :
    (sanitizeServiceName s).data ≠ []
  ∧ (∃ c, (sanitizeServiceName s).data.head? = some c ∧ isLowerAlpha c = true)
  ∧ (sanitizeServiceName s).data.length ≤ 63 := by
  by_cases hnil : sanitizeSteps s.data = []
  · have hval : sanitizeServiceName s = "meteor-app" := by
      unfold sanitizeServiceName
      rw [hnil]
      rfl
    rw [hval]
    refine ⟨by simp, ⟨'m', by simp, by decide⟩, by simp⟩
  · rcases hhd : (sanitizeSteps s.data).head? with _ | c
    · rcases hl : sanitizeSteps s.data with _ | ⟨x, xs⟩
      · exact absurd hl hnil
      · rw [hl] at hhd
        simp at hhd
    · have hlow : isLowerAlpha c = true := sanitizeSteps_head _ _ hhd
      have hne : c ≠ '-' := isLowerAlpha_ne_hyphen c hlow
      have hheadD : (sanitizeSteps s.data).headD ' ' = c := by
        rw [List.headD_eq_head?, hhd]
        rfl
      have hcond : ((sanitizeSteps s.data).isEmpty
          || !(isLowerAlpha ((sanitizeSteps s.data).headD ' '))) = false := by
        rw [hheadD, hlow]
        rcases hl : sanitizeSteps s.data with _ | ⟨x, xs⟩
        · exact absurd hl hnil
        · rfl
      have hdrop := dropTrailingHyphen_head (sanitizeSteps s.data) c hhd hne
      have hval : sanitizeServiceName s =
          String.mk (dropTrailingHyphen (sanitizeSteps s.data)) := by
        unfold sanitizeServiceName
        simp only [hcond, Bool.false_eq_true, if_false]
        rcases hl : dropTrailingHyphen (sanitizeSteps s.data) with _ | ⟨x, xs⟩
        · exact absurd hl hdrop.2
        · rfl
      rw [hval]
      refine ⟨hdrop.2, ⟨c, hdrop.1, hlow⟩, ?_⟩
      calc (dropTrailingHyphen (sanitizeSteps s.data)).length
          ≤ (sanitizeSteps s.data).length := dropTrailingHyphen_length_le _
        _ ≤ 63 := sanitizeSteps_length_le _

/-- C9: every generated resource name is the sanitized service name plus
    its fixed suffix (`ip`, `ssl-cert`, `neg`, `backend`, `url-map`,
    `https-proxy`, `https-rule`, `nat-ip`, `router`, `nat`); the VPC
    connector name is the raw service name plus `-connector` exactly when
    outbound NAT is requested; and sanitization always produces a
    nonempty name that starts with a lowercase letter and is at most 63
    characters long. -/
theorem C9_resource_naming (s p d reg a b : String) :
    generateResourceNames s =
      { staticIpName := sanitizeServiceName s ++ "-ip"
        sslCertName := sanitizeServiceName s ++ "-ssl-cert"
        negName := sanitizeServiceName s ++ "-neg"
        backendServiceName := sanitizeServiceName s ++ "-backend"
        urlMapName := sanitizeServiceName s ++ "-url-map"
        targetProxyName := sanitizeServiceName s ++ "-https-proxy"
        forwardingRuleName := sanitizeServiceName s ++ "-https-rule"
        natIpName := sanitizeServiceName s ++ "-nat-ip"
        routerName := sanitizeServiceName s ++ "-router"
        natName := sanitizeServiceName s ++ "-nat" }
  ∧ (createLoadBalancer ⟨p, s, d, reg, true⟩ (freshEnv a b)).1.vpcConnectorName
      = some (s ++ "-connector")
  ∧ (createLoadBalancer ⟨p, s, d, reg, false⟩ (freshEnv a b)).1.vpcConnectorName
      = none
  ∧ (sanitizeServiceName s).data ≠ []
  ∧ (∃ c, (sanitizeServiceName s).data.head? = some c ∧ isLowerAlpha c = true)
  ∧ (sanitizeServiceName s).data.length ≤ 63 := by
  refine ⟨rfl, rfl, rfl, ?_⟩
  exact sanitizeServiceName_spec s

/-! ## Poller lemmas for C8 -/

theorem waitLoop_terminates (poll : Nat → PollResult) (dur : Nat → Nat)
    (maxWaitMs : Nat) (hdur : ∀ i, 1 ≤ dur i) :
    ∀ (fuel i t : Nat), maxWaitMs ≤ t + fuel →
      waitLoop poll dur maxWaitMs fuel i t ≠ none := by
  intro fuel
  induction fuel with
  | zero =>
      intro i t hle
      rw [waitLoop, if_neg (by omega)]
      simp
  | succ fuel ih =>
      intro i t hle
      rw [waitLoop]
      by_cases ht : t < maxWaitMs
      · rw [if_pos ht]
        rcases hp : poll i with s | m
        · by_cases hs : s = "ACTIVE"
          · simp [hs]
          · simp only [hs, if_false]
            exact ih (i + 1) (t + dur i + 30000) (by have := hdur i; omega)
        · exact ih (i + 1) (t + dur i) (by have := hdur i; omega)
      · rw [if_neg ht]
        simp

theorem waitLoop_true_first (poll : Nat → PollResult) (dur : Nat → Nat)
    (maxWaitMs : Nat) :
    ∀ (fuel i t n : Nat), waitLoop poll dur maxWaitMs fuel i t = some (true, n) →
      i + 1 ≤ n ∧ poll (n - 1) = PollResult.ok "ACTIVE" ∧
      ∀ j, i ≤ j → j < n - 1 → poll j ≠ PollResult.ok "ACTIVE" := by
  intro fuel
  induction fuel with
  | zero =>
      intro i t n h
      rw [waitLoop] at h
      by_cases ht : t < maxWaitMs
      · rw [if_pos ht] at h
        simp at h
      · rw [if_neg ht] at h
        simp at h
  | succ fuel ih =>
      intro i t n h
      rw [waitLoop] at h
      by_cases ht : t < maxWaitMs
      · rw [if_pos ht] at h
        rcases hp : poll i with s | m
        · rw [hp] at h
          dsimp only [] at h
          by_cases hs : s = "ACTIVE"
          · rw [if_pos hs] at h
            simp at h
            obtain ⟨rfl⟩ := h
            refine ⟨le_refl _, ?_, ?_⟩
            · simpa [hs] using hp
            · intro j hj1 hj2
              omega
          · rw [if_neg hs] at h
            obtain ⟨h1, h2, h3⟩ := ih (i + 1) (t + dur i + 30000) n h
            refine ⟨by omega, h2, ?_⟩
            intro j hj1 hj2
            by_cases hji : j = i
            · subst hji
              rw [hp]
              intro hc
              injection hc with hc1
              exact hs hc1
            · exact h3 j (by omega) hj2
        · rw [hp] at h
          dsimp only [] at h
          obtain ⟨h1, h2, h3⟩ := ih (i + 1) (t + dur i) n h
          refine ⟨by omega, h2, ?_⟩
          intro j hj1 hj2
          by_cases hji : j = i
          · subst hji
            rw [hp]
            intro hc
            cases hc
          · exact h3 j (by omega) hj2
      · rw [if_neg ht] at h
        simp at h

/-- C8: whenever every status query takes at least a millisecond the
    poller terminates with a Boolean (it never throws: a timeout yields
    `false`, not an exception); whenever it returns `true` it did so at
    the first poll reporting `ACTIVE` (so it returns as soon as a poll
    reports the status `ACTIVE`, and errors or non-ready statuses at
    earlier polls did not terminate it); concretely, against a source
    that always reports `PROVISIONING` with `maxWaitMinutes = 1` it
    returns `false` after two polls (at least one), and a source that
    throws on the first poll and reports `ACTIVE` on the second still
    yields `true` — a poll error is treated as "not yet ready", not as
    termination. -/
theorem C8_waitForReady_behavior :
    (∀ (poll : Nat → PollResult) (dur : Nat → Nat) (m : Nat),
        (∀ i, 1 ≤ dur i) →
        ∃ bn, waitForResourceReady poll dur m = some bn)
  ∧ (∀ (poll : Nat → PollResult) (dur : Nat → Nat) (m n : Nat),
        waitForResourceReady poll dur m = some (true, n) →
        1 ≤ n ∧ poll (n - 1) = PollResult.ok "ACTIVE" ∧
        ∀ j, j < n - 1 → poll j ≠ PollResult.ok "ACTIVE")
  ∧ waitForResourceReady (fun _ => PollResult.ok "PROVISIONING") (fun _ => 1) 1
      = some (false, 2)
  ∧ waitForResourceReady
      (fun i => if i = 0 then PollResult.err "boom" else PollResult.ok "ACTIVE")
      (fun _ => 1) 1 = some (true, 2) := by
  refine ⟨?_, ?_, by decide, by decide⟩
  · intro poll dur m hdur
    rcases hcase : waitLoop poll dur (m * 60 * 1000) (m * 60 * 1000 + 1) 0 0
      with _ | bn
    · exact absurd hcase
        (waitLoop_terminates poll dur _ hdur (m * 60 * 1000 + 1) 0 0 (by omega))
    · exact ⟨bn, hcase⟩
  · intro poll dur m n h
    have hfirst := waitLoop_true_first poll dur (m * 60 * 1000)
      (m * 60 * 1000 + 1) 0 0 n h
    exact ⟨hfirst.1, hfirst.2.1, fun j hj => hfirst.2.2 j (Nat.zero_le j) hj⟩

/-- Witness for C8: the poller terminates with a value against a source
    that always reports `PROVISIONING`, with every query taking 1 ms. -/
theorem C8_witness :
    ∃ bn, waitForResourceReady (fun _ => PollResult.ok "PROVISIONING")
      (fun _ => 1) 1 = some bn :=
  C8_waitForReady_behavior.1 (fun _ => PollResult.ok "PROVISIONING")
    (fun _ => 1) 1 (fun _ => le_refl 1)


/-! ## Stage characterizations and idempotence (C2) -/

theorem stageStaticIp_fst (cfg : ProvisionConfig) (env : Env) :
    (stageStaticIp cfg env).1 = env.staticIp.getD env.allocIp := by
  rcases env with ⟨sip, dn, cn, fi, fs, fh, nip, ro, na, co, sc, ng, be, um, tp, fr, ai, ani⟩
  rcases sip with _ | x <;> simp [stageStaticIp]

theorem stageStaticIp_env (cfg : ProvisionConfig) (env : Env) :
    (stageStaticIp cfg env).2.1 =
      { env with staticIp := some (env.staticIp.getD env.allocIp) } := by
  rcases env with ⟨sip, dn, cn, fi, fs, fh, nip, ro, na, co, sc, ng, be, um, tp, fr, ai, ani⟩
  rcases sip with _ | x <;> simp [stageStaticIp]

theorem stageNetwork_env (cfg : ProvisionConfig) (env : Env) :
    (stageNetwork cfg env).2.1 =
      { env with
          customNetwork := if env.defaultNetwork then env.customNetwork else true
          fwInternal := if env.defaultNetwork then env.fwInternal else true
          fwSsh := if env.defaultNetwork then env.fwSsh else true
          fwHttps := if env.defaultNetwork then env.fwHttps else true } := by
  rcases env with ⟨sip, dn, cn, fi, fs, fh, nip, ro, na, co, sc, ng, be, um, tp, fr, ai, ani⟩
  cases dn
  · cases cn <;> cases fi <;> cases fs <;> cases fh <;> simp [stageNetwork]
  · simp [stageNetwork]

theorem stageNatIp_env (cfg : ProvisionConfig) (env : Env) :
    (stageNatIp cfg env).2.1 =
      { env with natIp := some (env.natIp.getD env.allocNatIp) } := by
  rcases env with ⟨sip, dn, cn, fi, fs, fh, nip, ro, na, co, sc, ng, be, um, tp, fr, ai, ani⟩
  rcases nip with _ | x <;> simp [stageNatIp]

theorem stageRouter_env (cfg : ProvisionConfig) (env : Env) :
    (stageRouter cfg env).1 = { env with router := true } := by
  rcases env with ⟨sip, dn, cn, fi, fs, fh, nip, ro, na, co, sc, ng, be, um, tp, fr, ai, ani⟩
  cases ro <;> simp [stageRouter]

theorem stageNat_env (cfg : ProvisionConfig) (env : Env) :
    (stageNat cfg env).1 = { env with nat := true } := by
  rcases env with ⟨sip, dn, cn, fi, fs, fh, nip, ro, na, co, sc, ng, be, um, tp, fr, ai, ani⟩
  cases na <;> simp [stageNat]

theorem stageConnector_env (cfg : ProvisionConfig) (env : Env) :
    (stageConnector cfg env).1 =
      { env with connector := some (connectorAfter env.connector) } := by
  rcases env with ⟨sip, dn, cn, fi, fs, fh, nip, ro, na, co, sc, ng, be, um, tp, fr, ai, ani⟩
  rcases co with _ | st
  · rfl
  · by_cases h1 : st = "READY"
    · subst h1; rfl
    · by_cases h2 : st = "ERROR"
      · subst h2; rfl
      · simp [stageConnector, connectorAfter, h1, h2]

theorem stageSslCert_env (cfg : ProvisionConfig) (env : Env) :
    (stageSslCert cfg env).1 = { env with sslCert := true } := by
  rcases env with ⟨sip, dn, cn, fi, fs, fh, nip, ro, na, co, sc, ng, be, um, tp, fr, ai, ani⟩
  cases sc <;> simp [stageSslCert]

theorem stageNeg_env (cfg : ProvisionConfig) (env : Env) :
    (stageNeg cfg env).1 = { env with neg := true } := by
  rcases env with ⟨sip, dn, cn, fi, fs, fh, nip, ro, na, co, sc, ng, be, um, tp, fr, ai, ani⟩
  cases ng <;> simp [stageNeg]

theorem stageBackend_env (cfg : ProvisionConfig) (env : Env) :
    (stageBackend cfg env).1 = { env with backend := true } := by
  rcases env with ⟨sip, dn, cn, fi, fs, fh, nip, ro, na, co, sc, ng, be, um, tp, fr, ai, ani⟩
  cases be <;> simp [stageBackend]

theorem stageUrlMap_env (cfg : ProvisionConfig) (env : Env) :
    (stageUrlMap cfg env).1 = { env with urlMap := true } := by
  rcases env with ⟨sip, dn, cn, fi, fs, fh, nip, ro, na, co, sc, ng, be, um, tp, fr, ai, ani⟩
  cases um <;> simp [stageUrlMap]

theorem stageTargetProxy_env (cfg : ProvisionConfig) (env : Env) :
    (stageTargetProxy cfg env).1 = { env with targetProxy := true } := by
  rcases env with ⟨sip, dn, cn, fi, fs, fh, nip, ro, na, co, sc, ng, be, um, tp, fr, ai, ani⟩
  cases tp <;> simp [stageTargetProxy]

theorem stageForwardingRule_env (cfg : ProvisionConfig) (env : Env) :
    (stageForwardingRule cfg env).1 = { env with forwardingRule := true } := by
  rcases env with ⟨sip, dn, cn, fi, fs, fh, nip, ro, na, co, sc, ng, be, um, tp, fr, ai, ani⟩
  cases fr <;> simp [stageForwardingRule]

theorem createLoadBalancer_env (cfg : ProvisionConfig) (env : Env) :
    (createLoadBalancer cfg env).2.1 = envAfter cfg env := by
  by_cases hu : cfg.useStaticIP <;>
    simp [createLoadBalancer, hu, stageStaticIp_env, stageNetwork_env,
      stageNatIp_env, stageRouter_env, stageNat_env, stageConnector_env,
      stageSslCert_env, stageNeg_env, stageBackend_env, stageUrlMap_env,
      stageTargetProxy_env, stageForwardingRule_env, envAfter]

theorem createLoadBalancer_desc (cfg : ProvisionConfig) (env : Env) :
    (createLoadBalancer cfg env).1 = descOf cfg env := by
  by_cases hu : cfg.useStaticIP <;>
    simp [createLoadBalancer, hu, stageStaticIp_fst, stageStaticIp_env,
      stageNetwork_env, stageNatIp_env, stageRouter_env, stageNat_env,
      stageConnector_env, stageSslCert_env, stageNeg_env, stageBackend_env,
      stageUrlMap_env, stageTargetProxy_env, stageForwardingRule_env, descOf]

theorem connectorAfter_ne_error (x : Option String) :
    ¬(connectorAfter x = "ERROR") := by
  rcases x with _ | st
  · simp [connectorAfter]
  · by_cases h : st = "ERROR" <;> simp [connectorAfter, h]

theorem connectorAfter_idem (x : Option String) :
    connectorAfter (some (connectorAfter x)) = connectorAfter x := by
  have h := connectorAfter_ne_error x
  show (if connectorAfter x = "ERROR" then "READY" else connectorAfter x)
      = connectorAfter x
  rw [if_neg h]

theorem stageStaticIp_trace (cfg : ProvisionConfig) (env : Env) (a : String)
    (h : env.staticIp = some a) :
    (stageStaticIp cfg env).2.2 =
      [Cmd.describeCmd ResourceKind.staticIp
        (generateResourceNames cfg.serviceName).staticIpName] := by
  simp [stageStaticIp, h]

theorem stageNetwork_trace_default (cfg : ProvisionConfig) (env : Env)
    (h : env.defaultNetwork = true) :
    (stageNetwork cfg env).2.2 = [Cmd.describeCmd ResourceKind.network "default"] := by
  simp [stageNetwork, h]

theorem stageNetwork_trace_custom (cfg : ProvisionConfig) (env : Env)
    (hd : env.defaultNetwork = false) (hc : env.customNetwork = true)
    (hfi : env.fwInternal = true) (hfs : env.fwSsh = true)
    (hfh : env.fwHttps = true) :
    (stageNetwork cfg env).2.2 =
      [Cmd.describeCmd ResourceKind.network "default",
       Cmd.describeCmd ResourceKind.network (cfg.serviceName ++ "-network"),
       Cmd.describeCmd ResourceKind.fwInternal
         (cfg.serviceName ++ "-network" ++ "-allow-internal"),
       Cmd.describeCmd ResourceKind.fwSsh
         (cfg.serviceName ++ "-network" ++ "-allow-ssh"),
       Cmd.describeCmd ResourceKind.fwHttps
         (cfg.serviceName ++ "-network" ++ "-allow-https")] := by
  simp [stageNetwork, hd, hc, hfi, hfs, hfh]

theorem stageNatIp_trace (cfg : ProvisionConfig) (env : Env) (a : String)
    (h : env.natIp = some a) :
    (stageNatIp cfg env).2.2 =
      [Cmd.describeCmd ResourceKind.natIp
        (generateResourceNames cfg.serviceName).natIpName] := by
  simp [stageNatIp, h]

theorem stageRouter_trace (cfg : ProvisionConfig) (env : Env)
    (h : env.router = true) :
    (stageRouter cfg env).2 =
      [Cmd.describeCmd ResourceKind.router
        (generateResourceNames cfg.serviceName).routerName] := by
  simp [stageRouter, h]

theorem stageNat_trace (cfg : ProvisionConfig) (env : Env)
    (h : env.nat = true) :
    (stageNat cfg env).2 =
      [Cmd.describeCmd ResourceKind.nat
        (generateResourceNames cfg.serviceName).natName] := by
  simp [stageNat, h]

theorem stageConnector_trace (cfg : ProvisionConfig) (env : Env) (st : String)
    (h : env.connector = some st) (hne : ¬(st = "ERROR")) :
    (stageConnector cfg env).2 =
      [Cmd.enableApiCmd "vpcaccess.googleapis.com",
       Cmd.describeCmd ResourceKind.vpcConnector (cfg.serviceName ++ "-connector")] := by
  by_cases h1 : st = "READY" <;> simp [stageConnector, h, h1, hne]

theorem stageSslCert_trace (cfg : ProvisionConfig) (env : Env)
    (h : env.sslCert = true) :
    (stageSslCert cfg env).2 =
      [Cmd.describeCmd ResourceKind.sslCert
        (generateResourceNames cfg.serviceName).sslCertName] := by
  simp [stageSslCert, h]

theorem stageNeg_trace (cfg : ProvisionConfig) (env : Env)
    (h : env.neg = true) :
    (stageNeg cfg env).2 =
      [Cmd.describeCmd ResourceKind.neg
        (generateResourceNames cfg.serviceName).negName] := by
  simp [stageNeg, h]

theorem stageBackend_trace (cfg : ProvisionConfig) (env : Env)
    (h : env.backend = true) :
    (stageBackend cfg env).2 =
      [Cmd.describeCmd ResourceKind.backend
        (generateResourceNames cfg.serviceName).backendServiceName] := by
  simp [stageBackend, h]

theorem stageUrlMap_trace (cfg : ProvisionConfig) (env : Env)
    (h : env.urlMap = true) :
    (stageUrlMap cfg env).2 =
      [Cmd.describeCmd ResourceKind.urlMap
        (generateResourceNames cfg.serviceName).urlMapName] := by
  simp [stageUrlMap, h]

theorem stageTargetProxy_trace (cfg : ProvisionConfig) (env : Env)
    (h : env.targetProxy = true) :
    (stageTargetProxy cfg env).2 =
      [Cmd.describeCmd ResourceKind.targetProxy
        (generateResourceNames cfg.serviceName).targetProxyName] := by
  simp [stageTargetProxy, h]

theorem stageForwardingRule_trace (cfg : ProvisionConfig) (env : Env)
    (h : env.forwardingRule = true) :
    (stageForwardingRule cfg env).2 =
      [Cmd.describeCmd ResourceKind.forwardingRule
        (generateResourceNames cfg.serviceName).forwardingRuleName] := by
  simp [stageForwardingRule, h]

theorem descOf_envAfter (cfg : ProvisionConfig) (env : Env) :
    descOf cfg (envAfter cfg env) = descOf cfg env := by
  by_cases hu : cfg.useStaticIP <;> simp [descOf, envAfter, hu]

theorem envAfter_idem (cfg : ProvisionConfig) (env : Env) :
    envAfter cfg (envAfter cfg env) = envAfter cfg env := by
  by_cases hu : cfg.useStaticIP
  · by_cases hd : env.defaultNetwork <;>
      simp [envAfter, hu, hd, connectorAfter_idem]
  · simp [envAfter, hu]

theorem trace_run2_no_mutation (cfg : ProvisionConfig) (env : Env) :
    ((createLoadBalancer cfg (envAfter cfg env)).2.2).filter isMutatingCmd = [] := by
  by_cases hu : cfg.useStaticIP
  · by_cases hd : env.defaultNetwork <;>
      simp [createLoadBalancer, hu, hd, envAfter,
        stageStaticIp_env, stageNetwork_env, stageNatIp_env, stageRouter_env,
        stageNat_env, stageConnector_env, stageSslCert_env, stageNeg_env,
        stageBackend_env, stageUrlMap_env, stageTargetProxy_env,
        stageStaticIp_trace, stageNetwork_trace_default,
        stageNetwork_trace_custom, stageNatIp_trace, stageRouter_trace,
        stageNat_trace, stageConnector_trace, connectorAfter_ne_error,
        stageSslCert_trace, stageNeg_trace, stageBackend_trace,
        stageUrlMap_trace, stageTargetProxy_trace, stageForwardingRule_trace,
        isMutatingCmd]
  · simp [createLoadBalancer, hu, envAfter,
      stageStaticIp_env, stageSslCert_env, stageNeg_env,
      stageBackend_env, stageUrlMap_env, stageTargetProxy_env,
      stageStaticIp_trace, stageSslCert_trace, stageNeg_trace,
      stageBackend_trace, stageUrlMap_trace, stageTargetProxy_trace,
      stageForwardingRule_trace, isMutatingCmd]

theorem createdKinds_nil_of_no_mut (t : List Cmd)
    (h : t.filter isMutatingCmd = []) : createdKinds t = [] := by
  induction t with
  | nil => rfl
  | cons c rest ih =>
      cases c with
      | createCmd k n => simp [List.filter, isMutatingCmd] at h
      | deleteCmd k n => simp [List.filter, isMutatingCmd] at h
      | addBackendCmd a b => simp [List.filter, isMutatingCmd] at h
      | describeCmd k n =>
          simp only [List.filter, isMutatingCmd] at h
          simp only [createdKinds, List.filterMap_cons] at ih ⊢
          exact ih h
      | enableApiCmd a =>
          simp only [List.filter, isMutatingCmd] at h
          simp only [createdKinds, List.filterMap_cons] at ih ⊢
          exact ih h

/-- C2: provisioning is idempotent.  A second `createLoadBalancer` run
    from the provider state the first run left behind (so every describe
    query finds the resource the first run created or reused — the
    "no external interference" hypothesis is the reuse of the first run's
    environment) returns the same descriptor (same names, same IP
    addresses), leaves the provider state unchanged, and issues no
    mutating command at all — no create, no delete, no backend
    attachment: every stage takes the reuse-existing branch. -/
theorem C2_provision_idempotent (cfg : ProvisionConfig) (env : Env) :
    (createLoadBalancer cfg (createLoadBalancer cfg env).2.1).1
      = (createLoadBalancer cfg env).1
  ∧ (createLoadBalancer cfg (createLoadBalancer cfg env).2.1).2.1
      = (createLoadBalancer cfg env).2.1
  ∧ ((createLoadBalancer cfg (createLoadBalancer cfg env).2.1).2.2).filter
      isMutatingCmd = []
  ∧ createdKinds (createLoadBalancer cfg (createLoadBalancer cfg env).2.1).2.2
      = [] := by
  have h1 := createLoadBalancer_env cfg env
  refine ⟨?_, ?_, ?_, ?_⟩
  · rw [h1, createLoadBalancer_desc, createLoadBalancer_desc, descOf_envAfter]
  · rw [h1, createLoadBalancer_env]
    exact envAfter_idem cfg env
  · rw [h1]
    exact trace_run2_no_mutation cfg env
  · rw [h1]
    exact createdKinds_nil_of_no_mut _ (trace_run2_no_mutation cfg env)

end MCR
